import Mathlib

/-!
# Verification of `src/btree/bt_traits_details.c`

A shallow embedding of the layout-specific B-tree cursor routines:
the per-layout Huffman configuration gate, the cursor-validity checks
(fixed-column, variable-column, row), row iteration setup, and the
diagnostic key-order checker with its reset.

Modelling conventions:
* C `uint64_t` / `uint32_t` / `size_t` values are `Nat`; where the C
  arithmetic can wrap (the `uint64_t` sum `ref_recno + entries`) the
  embedding reduces the sum modulo `2 ^ 64` explicitly.
* Output parameters (`WT_UPDATE **updp`, `bool *valid`) are threaded
  explicitly: each function takes the caller-supplied contents and
  returns the final contents together with the `int` return code, so
  "the function did not write the out-parameter" is visible as
  "output equals input".  A `WT_UPDATE **updp` that is itself a null
  pointer is `none`; a non-null pointer with contents `u` is `some u`.
* Array accesses whose in-bounds status depends on cursor state
  (`pg_var[slot]`, `mod_row_update[slot]`) are embedded through
  `List.getElem?`; the out-of-bounds branch — undefined behaviour in
  the C — is the `none` result of an `Option`-returning embedding.
* External collaborators are parameters: the visibility resolver
  `__wt_txn_read` is a function returning an `int` code and an
  optional visible update; the row comparator (`__wt_compare` with the
  table's collator, a total order per the interface contract) is a
  total function into `Int`.  Buffer bookkeeping (`__wt_buf_set`,
  scratch allocation) is modelled as succeeding.
* The functions never write any cursor or page field (the C takes the
  cursor by pointer but only reads it); the embedding makes this
  structural: cursors and pages appear only as inputs.
-/

namespace BtTraits

/-- Modelled from the spec: `WT_RECNO_OOB`, the out-of-band record-number
sentinel meaning "no baseline"; the constant lives in the external header
`wt_internal.h`, outside this repository's sources. -/
def WT_RECNO_OOB : Nat := 0

/-- Modelled from the spec: `UINT32_MAX`, the sentinel slot value admitted
by the `WT_ASSERT` bound checks (invariant I1); external header constant. -/
def UINT32_MAX : Nat := 2 ^ 32 - 1

/-- Modelled from the spec: the POSIX `EINVAL` error code used by
`WT_RET_MSG` for configuration errors; any nonzero value. -/
def EINVAL : Nat := 22

/-- The type tag of a `WT_UPDATE`: the code only distinguishes
`WT_UPDATE_TOMBSTONE` from everything else. -/
inductive UpdType where
  | tombstone
  | standard
deriving DecidableEq, Repr

/-- A `WT_UPDATE` as read by this file: its type tag plus opaque payload
(the payload makes distinct updates distinguishable). -/
structure Upd where
  utype : UpdType
  data : Nat
deriving DecidableEq, Repr

/-- The decoded type of an on-page cell: the code only distinguishes
`WT_CELL_DEL` (a record already deleted when read) from everything else;
cell decoding (`__wt_cell_type`, `WT_COL_PTR`) is external. -/
inductive CellType where
  | del
  | other
deriving DecidableEq, Repr

/-! ## Config gate: `__bt_col_fix_huffman`, `__bt_col_var_huffman`,
`__bt_row_huffman` (lines 8-39) -/

/-- `__bt_col_fix_huffman`: fixed-size column stores may never be Huffman
encoded; `WT_RET_MSG(session, EINVAL, ...)` unconditionally. -/
def __bt_col_fix_huffman (len : Nat) : Nat :=
  EINVAL

/-- `__bt_col_var_huffman`: variable-length column-store keys may not be
Huffman encoded, so a nonzero requested length is `EINVAL`; zero is fine. -/
def __bt_col_var_huffman (len : Nat) : Nat :=
  if len ≠ 0 then EINVAL else 0

/-- `__bt_row_huffman`: row stores always support Huffman encoding. -/
def __bt_row_huffman (len : Nat) : Nat :=
  0

/-- The three page layouts of the variant dispatch. -/
inductive BtLayout where
  | fixedColumn
  | varColumn
  | row
deriving DecidableEq, Repr

/-- The spec's `check_huffman_applicable(layout, requested_length)`:
variant dispatch over the three per-layout gate functions. -/
def check_huffman_applicable : BtLayout → Nat → Nat
  | BtLayout.fixedColumn, len => __bt_col_fix_huffman len
  | BtLayout.varColumn, len => __bt_col_var_huffman len
  | BtLayout.row, len => __bt_row_huffman len

/-! ## Claim C7 -/

/-- C7: `check_huffman_applicable` fails with a configuration error for
the fixed-column layout for every requested length; for the var-column
layout it fails exactly when the requested length is nonzero; for the row
layout it always succeeds.  (Side-effect freedom is structural: the gate
functions are pure and take no mutable state.) -/
theorem c7_huffman_gate (len : Nat) :
    check_huffman_applicable BtLayout.fixedColumn len ≠ 0 ∧
    (check_huffman_applicable BtLayout.varColumn len = 0 ↔ len = 0) ∧
    check_huffman_applicable BtLayout.row len = 0 := by
  refine ⟨?_, ?_, rfl⟩
  · simp [check_huffman_applicable, __bt_col_fix_huffman, EINVAL]
  · by_cases h : len = 0 <;>
      simp [check_huffman_applicable, __bt_col_var_huffman, h, EINVAL]

/-- C7 witness: the gate evaluated at concrete lengths. -/
theorem c7_huffman_gate_witness :
    check_huffman_applicable BtLayout.fixedColumn 3 ≠ 0 ∧
    (check_huffman_applicable BtLayout.varColumn 3 = 0 ↔ (3 : Nat) = 0) ∧
    check_huffman_applicable BtLayout.row 3 = 0 :=
  c7_huffman_gate 3

/-! ## Cursor validity: `__bt_col_fix_cursor_valid` (lines 45-59) -/

/-- The cursor state read by `__bt_col_fix_cursor_valid`: `cbt->recno`
(`uint64_t`), `cbt->ref->ref_recno` (`uint64_t`, the page's base record
number), `cbt->ref->page->entries` (`uint32_t`). -/
structure ColFixCursor where
  recno : Nat
  ref_recno : Nat
  entries : Nat
deriving DecidableEq, Repr

/-- `__bt_col_fix_cursor_valid`: retrieval past the end of the page is
invalid, otherwise valid.  `updp` is `WT_UNUSED`.  The comparison
`cbt->recno >= cbt->ref->ref_recno + cbt->ref->page->entries` is `uint64_t`
arithmetic, so the sum wraps modulo `2 ^ 64`.  Returns the `int` return
code and the final contents of the two out-parameters. -/
def __bt_col_fix_cursor_valid (cbt : ColFixCursor) (updp : Option (Option Upd))
    (valid : Bool) : Nat × Option (Option Upd) × Bool :=
  if (cbt.ref_recno + cbt.entries) % 2 ^ 64 ≤ cbt.recno then (0, updp, valid)
  else (0, updp, true)

/-- The caller contract of `check_valid` for fixed column: a provided
`updp` pointer initialized to null and `*valid` initialized to `false`;
the reported validity is the final `*valid`. -/
def col_fix_check_valid (cbt : ColFixCursor) : Bool :=
  (__bt_col_fix_cursor_valid cbt (some none) false).2.2

/-! ## Claim C1 (corrected) -/

/-- C1 counterexample: at `recno = 2`, `base_recno = 5`, `entries = 3` the
code reports the position valid although the claimed lower bound
`base_recno ≤ record_number` fails — the claim's "valid iff
`base_recno ≤ record_number < base_recno + entries`" is false here. -/
theorem c1_fix_lower_bound_counterexample :
    col_fix_check_valid ⟨2, 5, 3⟩ = true ∧ ¬ ((5 : Nat) ≤ 2 ∧ (2 : Nat) < 5 + 3) := by
  constructor
  · rfl
  · decide

/-- C1 (amended): for the fixed-column layout `check_valid` reports the
position valid iff `record_number < base_recno + entries`; the lower
bound `base_recno ≤ record_number` is not checked (assuming the `uint64_t`
sum does not wrap). -/
theorem c1_fix_valid_iff (cbt : ColFixCursor)
    (h : cbt.ref_recno + cbt.entries < 2 ^ 64) :
    col_fix_check_valid cbt = true ↔ cbt.recno < cbt.ref_recno + cbt.entries := by
  unfold col_fix_check_valid __bt_col_fix_cursor_valid
  rw [Nat.mod_eq_of_lt h]
  by_cases hc : cbt.ref_recno + cbt.entries ≤ cbt.recno <;> simp [hc] <;> omega

/-- C1 witness: the amended theorem at `recno = 4`, `base_recno = 3`,
`entries = 2`. -/
theorem c1_fix_valid_iff_witness :
    (3 : Nat) + 2 < 2 ^ 64 ∧
      (col_fix_check_valid ⟨4, 3, 2⟩ = true ↔ (4 : Nat) < 3 + 2) :=
  ⟨by norm_num, c1_fix_valid_iff ⟨4, 3, 2⟩ (by norm_num)⟩

/-! ## Cursor validity: `__bt_col_var_cursor_valid` (lines 65-104) -/

/-- The var-column page state read by `__bt_col_var_cursor_valid`:
`page->entries` and the `page->pg_var` array, each slot recorded by the
decoded type of its cell (`__wt_cell_type(WT_COL_PTR(page, cip))`). -/
structure VarPage where
  entries : Nat
  pg_var : List CellType
deriving DecidableEq, Repr

/-- The cursor state read by `__bt_col_var_cursor_valid`: the page,
`cbt->slot` (`uint32_t`), whether `cbt->ins != NULL`, and the
`WT_CBT_VAR_ONPAGE_MATCH` flag. -/
structure ColVarCursor where
  page : VarPage
  slot : Nat
  ins : Bool
  var_onpage_match : Bool
deriving DecidableEq, Repr

/-- The `WT_ASSERT` at lines 84 and 126: invariant I1 as the code states
it, admitting the `UINT32_MAX` sentinel besides in-range slots. -/
def slot_assert (slot entries : Nat) : Prop :=
  slot = UINT32_MAX ∨ slot < entries

instance (slot entries : Nat) : Decidable (slot_assert slot entries) := by
  unfold slot_assert
  infer_instance

/-- `__bt_col_var_cursor_valid`: empty page is invalid; an insert object
without the on-page-match flag is invalid; a `WT_CELL_DEL` cell at the
slot is invalid; otherwise valid.  `updp` is `WT_UNUSED`.  The array
access `page->pg_var[cbt->slot]` is embedded through `List.getElem?`; the
`none` result is the out-of-bounds access, undefined behaviour in the C
(the `WT_ASSERT` is diagnostic-only and does not guard it). -/
def __bt_col_var_cursor_valid (cbt : ColVarCursor) (updp : Option (Option Upd))
    (valid : Bool) : Option (Nat × Option (Option Upd) × Bool) :=
  if cbt.page.entries = 0 then some (0, updp, valid)
  else if cbt.ins && !cbt.var_onpage_match then some (0, updp, valid)
  else
    match cbt.page.pg_var[cbt.slot]? with
    | none => none
    | some c =>
      if c = CellType.del then some (0, updp, valid)
      else some (0, updp, true)

/-- The caller contract of `check_valid` for var column: `updp` provided
and null, `*valid` initialized `false`; reported validity is the final
`*valid` (or `none` on the undefined-behaviour branch). -/
def col_var_check_valid (cbt : ColVarCursor) : Option Bool :=
  (__bt_col_var_cursor_valid cbt (some none) false).map (fun r => r.2.2)

/-! ## Claim C3 -/

/-- C3: for the var-column layout `check_valid` reports: invalid whenever
`page.entries = 0`; invalid whenever an insert node is positioned and the
on-page-match flag is unset; otherwise invalid whenever the on-page cell
at the slot is of the deleted type; and valid in every remaining case.
The hypotheses make the on-page array well-formed and the cell access
in-bounds whenever it is reached. -/
theorem c3_var_valid_iff (cbt : ColVarCursor)
    (hlen : cbt.page.pg_var.length = cbt.page.entries)
    (hslot : cbt.page.entries = 0 ∨ (cbt.ins = true ∧ cbt.var_onpage_match = false) ∨
      cbt.slot < cbt.page.entries) :
    (∃ b, col_var_check_valid cbt = some b) ∧
    (col_var_check_valid cbt = some true ↔
      cbt.page.entries ≠ 0 ∧ ¬ (cbt.ins = true ∧ cbt.var_onpage_match = false) ∧
        cbt.page.pg_var[cbt.slot]? ≠ some CellType.del) := by
  unfold col_var_check_valid __bt_col_var_cursor_valid
  by_cases h0 : cbt.page.entries = 0
  · simp [h0]
  · by_cases hins : cbt.ins = true ∧ cbt.var_onpage_match = false
    · simp [h0, hins.1, hins.2]
    · have hlt : cbt.slot < cbt.page.pg_var.length := by
        rw [hlen]
        rcases hslot with h | h | h
        · exact absurd h h0
        · exact absurd h hins
        · exact h
      obtain ⟨c, hget⟩ : ∃ c, cbt.page.pg_var[cbt.slot]? = some c :=
        ⟨_, List.getElem?_eq_some_iff.mpr ⟨hlt, rfl⟩⟩
      by_cases hdel : c = CellType.del
      · have hb : cbt.ins = false ∨ cbt.var_onpage_match = true := by
          cases hi : cbt.ins <;> cases hm : cbt.var_onpage_match <;> simp_all
        rcases hb with hb | hb <;> simp [h0, hb, hget, hdel, hins]
      · have hb : cbt.ins = false ∨ cbt.var_onpage_match = true := by
          cases hi : cbt.ins <;> cases hm : cbt.var_onpage_match <;> simp_all
        rcases hb with hb | hb <;> simp [h0, hb, hget, hdel, hins]

/-- C3 witness: the spec's example page — three entries, slot 1 deleted,
no insert nodes — evaluated at slot 0 (valid). -/
theorem c3_var_valid_iff_witness :
    ((3 : Nat) = 3 ∧
      ((3 : Nat) = 0 ∨ (false = true ∧ false = false) ∨ (0 : Nat) < 3)) ∧
    ((∃ b, col_var_check_valid
        ⟨⟨3, [CellType.other, CellType.del, CellType.other]⟩, 0, false, false⟩ = some b) ∧
      (col_var_check_valid
          ⟨⟨3, [CellType.other, CellType.del, CellType.other]⟩, 0, false, false⟩ = some true ↔
        (3 : Nat) ≠ 0 ∧ ¬ (false = true ∧ false = false) ∧
          [CellType.other, CellType.del, CellType.other][(0 : Nat)]? ≠ some CellType.del)) :=
  ⟨⟨rfl, by decide⟩,
    c3_var_valid_iff ⟨⟨3, [CellType.other, CellType.del, CellType.other]⟩, 0, false, false⟩
      rfl (by decide)⟩

/-! ## Cursor validity: `__bt_row_cursor_valid` (lines 111-147) -/

/-- The row page state read by `__bt_row_cursor_valid`: `page->entries`
and the per-slot version-chain heads.  `mod_row_update` is `none` when
`page->modify == NULL` or `page->modify->mod_row_update == NULL`; chain
heads are values of an opaque type `C` (possibly-null `WT_UPDATE *`
pointers, interpreted only by the external resolver). -/
structure RowPage (C : Type) where
  entries : Nat
  mod_row_update : Option (List C)

/-- The cursor state read by `__bt_row_cursor_valid`: the page,
`cbt->slot` (`uint32_t`), and whether `cbt->ins != NULL`. -/
structure RowCursor (C : Type) where
  page : RowPage C
  slot : Nat
  ins : Bool

/-- `__bt_row_cursor_valid`: empty page is invalid; an insert object is
invalid (invariant I2: the insert node's value is authoritative); else the
slot's chain head is handed to the external visibility resolver
`__wt_txn_read` (a parameter returning an `int` code and the visible
update), whose failure is propagated unchanged by `WT_RET`; a visible
tombstone is invalid; a visible non-tombstone sets `*updp` (when the
pointer is non-null) and is valid; no visible update is valid.  The
access `page->modify->mod_row_update[cbt->slot]` goes through
`List.getElem?`; `none` is the out-of-bounds access, undefined behaviour
in the C. -/
def __bt_row_cursor_valid {C : Type} (txn_read : C → Nat × Option Upd)
    (cbt : RowCursor C) (updp : Option (Option Upd)) (valid : Bool) :
    Option (Nat × Option (Option Upd) × Bool) :=
  if cbt.page.entries = 0 then some (0, updp, valid)
  else if cbt.ins then some (0, updp, valid)
  else
    match cbt.page.mod_row_update with
    | none => some (0, updp, true)
    | some arr =>
      match arr[cbt.slot]? with
      | none => none
      | some chain =>
        let r := txn_read chain
        if r.1 ≠ 0 then some (r.1, updp, valid)
        else
          match r.2 with
          | none => some (0, updp, true)
          | some u =>
            if u.utype = UpdType.tombstone then some (0, updp, valid)
            else
              some (0, (match updp with
                        | none => none
                        | some _ => some (some u)), true)

/-- The caller contract of `check_valid` for row: `updp` provided and
null, `*valid` initialized `false`. -/
def row_check_valid {C : Type} (txn_read : C → Nat × Option Upd)
    (cbt : RowCursor C) : Option (Nat × Option (Option Upd) × Bool) :=
  __bt_row_cursor_valid txn_read cbt (some none) false

/-! ## Claim C2 -/

/-- C2: for the row layout, a cursor with no insert node on a non-empty
page: a visible tombstone on the slot's version chain is invalid; a
visible non-tombstone is valid and returned through `visible_update`;
no visible update, or no version chain at all, is valid with
`visible_update` left null. -/
theorem c2_row_visibility (C : Type) (txn_read : C → Nat × Option Upd)
    (entries slot : Nat) (arr : List C) (chain : C)
    (hentries : entries ≠ 0) (hget : arr[slot]? = some chain) :
    (∀ u : Upd, txn_read chain = (0, some u) → u.utype = UpdType.tombstone →
      row_check_valid txn_read ⟨⟨entries, some arr⟩, slot, false⟩ =
        some (0, some none, false)) ∧
    (∀ u : Upd, txn_read chain = (0, some u) → u.utype ≠ UpdType.tombstone →
      row_check_valid txn_read ⟨⟨entries, some arr⟩, slot, false⟩ =
        some (0, some (some u), true)) ∧
    (txn_read chain = (0, none) →
      row_check_valid txn_read ⟨⟨entries, some arr⟩, slot, false⟩ =
        some (0, some none, true)) ∧
    (row_check_valid txn_read ⟨⟨entries, none⟩, slot, false⟩ =
        some (0, some none, true)) := by
  refine ⟨?_, ?_, ?_, ?_⟩
  · intro u hr ht
    simp [row_check_valid, __bt_row_cursor_valid, hentries, hget, hr, ht]
  · intro u hr ht
    simp [row_check_valid, __bt_row_cursor_valid, hentries, hget, hr, ht]
  · intro hr
    simp [row_check_valid, __bt_row_cursor_valid, hentries, hget, hr]
  · simp [row_check_valid, __bt_row_cursor_valid, hentries]

/-- C2 witness: a one-slot page whose chain (head `7`) resolves to a
standard update; the tombstone resolver case exercised at chain head `9`
of the same concrete resolver. -/
theorem c2_row_visibility_witness :
    ((1 : Nat) ≠ 0 ∧ [(7 : Nat)][(0 : Nat)]? = some 7) ∧
    row_check_valid
        (fun c : Nat => if c = 7 then (0, some ⟨UpdType.standard, 42⟩) else (0, none))
        ⟨⟨1, some [7]⟩, 0, false⟩ =
      some (0, some (some ⟨UpdType.standard, 42⟩), true) :=
  ⟨⟨by decide, by decide⟩,
    ((c2_row_visibility Nat
        (fun c => if c = 7 then (0, some ⟨UpdType.standard, 42⟩) else (0, none))
        1 0 [7] 7 (by decide) (by decide)).2.1
      ⟨UpdType.standard, 42⟩ (by decide) (by decide))⟩

/-! ## Claim C4 -/

/-- C4: for the row layout, a cursor on a non-empty page with an insert
node set is reported invalid with the out-parameters untouched, and the
result is identical for any two modify/version-chain states and any two
behaviours of the visibility resolver — the resolver is never consulted. -/
theorem c4_row_insert_precedence (C : Type)
    (txn_read1 txn_read2 : C → Nat × Option Upd) (entries slot : Nat)
    (m1 m2 : Option (List C)) (updp : Option (Option Upd)) (valid : Bool)
    (hentries : entries ≠ 0) :
    __bt_row_cursor_valid txn_read1 ⟨⟨entries, m1⟩, slot, true⟩ updp valid =
      some (0, updp, valid) ∧
    __bt_row_cursor_valid txn_read1 ⟨⟨entries, m1⟩, slot, true⟩ updp valid =
      __bt_row_cursor_valid txn_read2 ⟨⟨entries, m2⟩, slot, true⟩ updp valid := by
  constructor <;> simp [__bt_row_cursor_valid, hentries]

/-- C4 witness: two wildly different resolvers and modify states agree on
a one-entry page with an insert node. -/
theorem c4_row_insert_precedence_witness :
    (1 : Nat) ≠ 0 ∧
    (__bt_row_cursor_valid (fun _ : Nat => (0, some ⟨UpdType.tombstone, 0⟩))
        ⟨⟨1, some [5]⟩, 0, true⟩ (some none) false = some (0, some none, false) ∧
      __bt_row_cursor_valid (fun _ : Nat => (0, some ⟨UpdType.tombstone, 0⟩))
          ⟨⟨1, some [5]⟩, 0, true⟩ (some none) false =
        __bt_row_cursor_valid (fun _ : Nat => (1, none))
          ⟨⟨1, none⟩, 0, true⟩ (some none) false) :=
  ⟨by decide,
    c4_row_insert_precedence Nat (fun _ => (0, some ⟨UpdType.tombstone, 0⟩))
      (fun _ => (1, none)) 1 0 (some [5]) none (some none) false (by decide)⟩

/-! ## Iteration setup: `__bt_row_cursor_iterate_setup` (lines 175-197) -/

/-- The cursor state read by `__bt_row_cursor_iterate_setup`:
`cbt->slot`, and `cbt->ins_head` collapsed to what the code compares it
against — `none` for a null head, `some true` when it equals
`WT_ROW_INSERT_SMALLEST(page)`, `some false` for any other insert list. -/
structure RowIterCursor where
  slot : Nat
  ins_head_smallest : Option Bool
deriving DecidableEq, Repr

/-- `__bt_row_cursor_iterate_setup`: the unified logical slot,
`(cbt->slot + 1) * 2`, overwritten with `1` for the smallest-key insert
list and incremented by `1` for any other insert list. -/
def __bt_row_cursor_iterate_setup (cbt : RowIterCursor) : Nat :=
  let s := (cbt.slot + 1) * 2
  match cbt.ins_head_smallest with
  | none => s
  | some true => 1
  | some false => s + 1

/-- The logical positions of the row mapping: an on-page slot, the
smallest-key insert list, or the insert list following on-page slot `s`. -/
inductive RowPosition where
  | onPage (s : Nat)
  | smallestIns
  | slotIns (s : Nat)
deriving DecidableEq, Repr

/-- The cursor state representing a given logical position (for the
smallest-key list the on-page slot field is immaterial; `c6` proves the
setup ignores it there). -/
def rowIterCursorOf : RowPosition → RowIterCursor
  | RowPosition.onPage s => ⟨s, none⟩
  | RowPosition.smallestIns => ⟨0, some true⟩
  | RowPosition.slotIns s => ⟨s, some false⟩

/-- The logical slot `setup_iteration` assigns to each position. -/
def row_logical_slot (p : RowPosition) : Nat :=
  __bt_row_cursor_iterate_setup (rowIterCursorOf p)

/-! ## Claim C6 -/

/-- C6: `setup_iteration` assigns logical slot `(s+1)*2` to on-page slot
`s` with no insert node, logical slot `1` to any cursor on the
smallest-key insert list (whatever its on-page slot field holds), and
`(s+1)*2+1` to the insert list after slot `s`; the position-to-slot map
is injective, with insert lists odd and on-page entries even. -/
theorem c6_row_logical_slot_map :
    (∀ s : Nat, __bt_row_cursor_iterate_setup ⟨s, none⟩ = (s + 1) * 2) ∧
    (∀ s : Nat, __bt_row_cursor_iterate_setup ⟨s, some true⟩ = 1) ∧
    (∀ s : Nat, __bt_row_cursor_iterate_setup ⟨s, some false⟩ = (s + 1) * 2 + 1) ∧
    Function.Injective row_logical_slot ∧
    (∀ s : Nat, row_logical_slot (RowPosition.onPage s) % 2 = 0) ∧
    (row_logical_slot RowPosition.smallestIns % 2 = 1) ∧
    (∀ s : Nat, row_logical_slot (RowPosition.slotIns s) % 2 = 1) := by
  refine ⟨fun s => rfl, fun s => rfl, fun s => rfl, ?_, fun s => by
    simp [row_logical_slot, rowIterCursorOf, __bt_row_cursor_iterate_setup, Nat.mul_mod],
    rfl, fun s => by
    simp [row_logical_slot, rowIterCursorOf, __bt_row_cursor_iterate_setup,
      Nat.add_mul_mod_self_right, Nat.add_mod, Nat.mul_mod]⟩
  intro p q hpq
  cases p <;> cases q <;>
    simp [row_logical_slot, rowIterCursorOf, __bt_row_cursor_iterate_setup] at hpq ⊢ <;>
    omega

/-- C6 witness: the injectivity applied at two cursors carrying the same
logical slot, and the mapping evaluated at slot `2`. -/
theorem c6_row_logical_slot_map_witness :
    RowPosition.onPage 2 = RowPosition.onPage 2 ∧
    row_logical_slot (RowPosition.onPage 2) = 6 :=
  ⟨c6_row_logical_slot_map.2.2.2.1 (rfl :
      row_logical_slot (RowPosition.onPage 2) = row_logical_slot (RowPosition.onPage 2)),
    by decide⟩

/-! ## Diagnostic key-order checker (lines 228-306) -/

/-- The outcome of `__bt_col_cursor_key_order_check`: the normal return
`0` with the updated `cbt->lastrecno` baseline, or the `WT_PANIC_RET`
fatal path carrying the direction and both compared record numbers from
the diagnostic message. -/
inductive ColOrderResult where
  | ok (lastrecno : Nat)
  | panic (next : Bool) (lastrecno recno : Nat)
deriving DecidableEq, Repr

/-- `__bt_col_cursor_key_order_check`: `cmp` compares `cbt->lastrecno`
with `cbt->recno` when a baseline exists; the check passes — updating the
baseline to `cbt->recno` — when there is no baseline (`WT_RECNO_OOB`) or
`cmp` is strict in the direction of travel, and panics otherwise. -/
def __bt_col_cursor_key_order_check (lastrecno recno : Nat) (next : Bool) :
    ColOrderResult :=
  let cmp : Int :=
    if lastrecno ≠ WT_RECNO_OOB then
      if lastrecno < recno then -1
      else if recno < lastrecno then 1
      else 0
    else 0
  if lastrecno = WT_RECNO_OOB ∨ (next = true ∧ cmp < 0) ∨ (next = false ∧ 0 < cmp) then
    ColOrderResult.ok recno
  else
    ColOrderResult.panic next lastrecno recno

/-- The outcome of `__bt_row_cursor_key_order_check`: the normal return
(`__wt_buf_set` copying the current key into `cbt->lastkey`, modelled as
succeeding), or the `WT_PANIC_ERR` fatal path carrying the direction and
both compared keys from the diagnostic message. -/
inductive RowOrderResult where
  | ok (lastkey : List Nat)
  | panic (next : Bool) (lastkey key : List Nat)
deriving DecidableEq, Repr

/-- `__bt_row_cursor_key_order_check`: keys are byte strings; `compare`
is the external `__wt_compare` with the table's collator (a total order
per the interface contract), consulted only when `cbt->lastkey->size` is
nonzero; the check passes — the baseline becoming the current key — when
there is no baseline or `cmp` is strict in the direction of travel, and
panics otherwise. -/
def __bt_row_cursor_key_order_check (compare : List Nat → List Nat → Int)
    (lastkey key : List Nat) (next : Bool) : RowOrderResult :=
  let cmp : Int := if lastkey.length ≠ 0 then compare lastkey key else 0
  if lastkey.length = 0 ∨ (next = true ∧ cmp < 0) ∨ (next = false ∧ 0 < cmp) then
    RowOrderResult.ok key
  else
    RowOrderResult.panic next lastkey key

/-- The checker baseline carried by the cursor: `cbt->lastkey` (a byte
buffer whose zero size means "no baseline") and `cbt->lastrecno`. -/
structure OrderState where
  lastkey : List Nat
  lastrecno : Nat
deriving DecidableEq, Repr

/-- `__bt_cursor_key_order_reset`: clear the last key returned and the
last record number. -/
def __bt_cursor_key_order_reset (s : OrderState) : OrderState :=
  { s with lastkey := [], lastrecno := WT_RECNO_OOB }

/-! ## Claim C5 -/

/-- C5: the ordering `check` succeeds — installing the current position
as the baseline — exactly when there is no baseline or the previous
position compares strictly less (forward) / strictly greater (backward)
than the current one; in every other case, equality included, it takes
the fatal panic path carrying both compared values, never a normal error
return.  Stated for both the column and the row checker. -/
theorem c5_order_check_strict (lastrecno recno : Nat) (next : Bool)
    (compare : List Nat → List Nat → Int) (lastkey key : List Nat) :
    (__bt_col_cursor_key_order_check lastrecno recno next = ColOrderResult.ok recno ↔
      lastrecno = WT_RECNO_OOB ∨ (next = true ∧ lastrecno < recno) ∨
        (next = false ∧ recno < lastrecno)) ∧
    (__bt_col_cursor_key_order_check lastrecno recno next = ColOrderResult.ok recno ∨
      __bt_col_cursor_key_order_check lastrecno recno next =
        ColOrderResult.panic next lastrecno recno) ∧
    (__bt_row_cursor_key_order_check compare lastkey key next = RowOrderResult.ok key ↔
      lastkey = [] ∨ (next = true ∧ compare lastkey key < 0) ∨
        (next = false ∧ 0 < compare lastkey key)) ∧
    (__bt_row_cursor_key_order_check compare lastkey key next = RowOrderResult.ok key ∨
      __bt_row_cursor_key_order_check compare lastkey key next =
        RowOrderResult.panic next lastkey key) := by
  refine ⟨?_, ?_, ?_, ?_⟩
  · unfold __bt_col_cursor_key_order_check
    by_cases hob : lastrecno = WT_RECNO_OOB
    · simp [hob]
    · cases next <;> by_cases hlt : lastrecno < recno <;>
        by_cases hgt : recno < lastrecno <;> simp [hob, hlt, hgt] <;> omega
  · unfold __bt_col_cursor_key_order_check
    dsimp only
    repeat' split
    all_goals first
    | exact Or.inl rfl
    | exact Or.inr rfl
  · unfold __bt_row_cursor_key_order_check
    by_cases hob : lastkey.length = 0
    · simp [hob, List.length_eq_zero.mp hob]
    · have hne : ¬ lastkey = [] := by
        intro h
        exact hob (by simp [h])
      cases next <;> simp [hob, hne]
  · unfold __bt_row_cursor_key_order_check
    dsimp only
    repeat' split
    all_goals first
    | exact Or.inl rfl
    | exact Or.inr rfl

/-- C5 witness: the spec's duplicate-record-number scenario — a forward
traversal returning `10` then `10` takes the fatal path. -/
theorem c5_order_check_strict_witness :
    __bt_col_cursor_key_order_check 10 10 true = ColOrderResult.panic true 10 10 := by
  have h := c5_order_check_strict 10 10 true (fun _ _ => 0) [] []
  rcases h.2.1 with hok | hp
  · rcases h.1.mp hok with hob | ⟨hn, hlt⟩ | ⟨hn, hgt⟩
    · exact absurd hob (by decide)
    · exact absurd hlt (by decide)
    · exact absurd hn (by decide)
  · exact hp

/-! ## Claim C8 -/

/-- C8: after `reset` the baseline is cleared — empty `lastkey`,
out-of-band `lastrecno` — so for any cursor position and either direction
the very next `check` passes without a fatal signal, installing the
current position as the new baseline. -/
theorem c8_reset_clears_baseline (s : OrderState) (recno : Nat) (next : Bool)
    (compare : List Nat → List Nat → Int) (key : List Nat) :
    (__bt_cursor_key_order_reset s).lastkey = [] ∧
    (__bt_cursor_key_order_reset s).lastrecno = WT_RECNO_OOB ∧
    __bt_col_cursor_key_order_check (__bt_cursor_key_order_reset s).lastrecno recno next =
      ColOrderResult.ok recno ∧
    __bt_row_cursor_key_order_check compare (__bt_cursor_key_order_reset s).lastkey key next =
      RowOrderResult.ok key := by
  refine ⟨rfl, rfl, ?_, ?_⟩
  · simp [__bt_cursor_key_order_reset, __bt_col_cursor_key_order_check]
  · simp [__bt_cursor_key_order_reset, __bt_row_cursor_key_order_check]

/-- C8 witness: reset then a backward check at record number `3` passes. -/
theorem c8_reset_clears_baseline_witness :
    __bt_col_cursor_key_order_check
        (__bt_cursor_key_order_reset ⟨[9, 9], 17⟩).lastrecno 3 false =
      ColOrderResult.ok 3 :=
  (c8_reset_clears_baseline ⟨[9, 9], 17⟩ 3 false (fun _ _ => 0) []).2.2.1

/-! ## Claim C9 -/

/-- C9: every `check_valid` implementation writes its out-parameters only
on the valid path.  Fixed and var column: return code `0`, `*updp` never
written, `*valid` either untouched or set to `true`.  Row: either both
out-parameters are untouched (every invalid return and every propagated
resolver error), or the return code is `0`, `*valid` is set to `true`,
and `*updp` is untouched unless a visible non-tombstone update is stored
into it.  (That no cursor or page field is modified is structural in the
embedding: cursors and pages occur only as inputs.) -/
theorem c9_outparam_frame (C : Type) (txn_read : C → Nat × Option Upd)
    (cbtF : ColFixCursor) (cbtV : ColVarCursor) (cbtR : RowCursor C)
    (updp : Option (Option Upd)) (valid : Bool) :
    ((__bt_col_fix_cursor_valid cbtF updp valid).1 = 0 ∧
      (__bt_col_fix_cursor_valid cbtF updp valid).2.1 = updp ∧
      ((__bt_col_fix_cursor_valid cbtF updp valid).2.2 = valid ∨
        (__bt_col_fix_cursor_valid cbtF updp valid).2.2 = true)) ∧
    (__bt_col_var_cursor_valid cbtV updp valid = none ∨
      ∃ r, __bt_col_var_cursor_valid cbtV updp valid = some r ∧
        r.1 = 0 ∧ r.2.1 = updp ∧ (r.2.2 = valid ∨ r.2.2 = true)) ∧
    (__bt_row_cursor_valid txn_read cbtR updp valid = none ∨
      ∃ r, __bt_row_cursor_valid txn_read cbtR updp valid = some r ∧
        ((r.2.1 = updp ∧ r.2.2 = valid) ∨
          (r.1 = 0 ∧ r.2.2 = true ∧
            (r.2.1 = updp ∨
              ∃ u : Upd, u.utype ≠ UpdType.tombstone ∧ r.2.1 = some (some u))))) := by
  refine ⟨?_, ?_, ?_⟩
  · unfold __bt_col_fix_cursor_valid
    split
    · exact ⟨rfl, rfl, Or.inl rfl⟩
    · exact ⟨rfl, rfl, Or.inr rfl⟩
  · unfold __bt_col_var_cursor_valid
    by_cases h0 : cbtV.page.entries = 0
    · rw [if_pos h0]
      exact Or.inr ⟨_, rfl, rfl, rfl, Or.inl rfl⟩
    · rw [if_neg h0]
      by_cases hins : (cbtV.ins && !cbtV.var_onpage_match) = true
      · rw [if_pos hins]
        exact Or.inr ⟨_, rfl, rfl, rfl, Or.inl rfl⟩
      · rw [if_neg hins]
        cases hget : cbtV.page.pg_var[cbtV.slot]? with
        | none =>
          simp only [hget]
          exact Or.inl trivial
        | some c =>
          simp only [hget]
          by_cases hdel : c = CellType.del
          · rw [if_pos hdel]
            exact Or.inr ⟨_, rfl, rfl, rfl, Or.inl rfl⟩
          · rw [if_neg hdel]
            exact Or.inr ⟨_, rfl, rfl, rfl, Or.inr rfl⟩
  · unfold __bt_row_cursor_valid
    dsimp only
    by_cases h0 : cbtR.page.entries = 0
    · rw [if_pos h0]
      exact Or.inr ⟨_, rfl, Or.inl ⟨rfl, rfl⟩⟩
    · rw [if_neg h0]
      by_cases hins : cbtR.ins = true
      · rw [if_pos hins]
        exact Or.inr ⟨_, rfl, Or.inl ⟨rfl, rfl⟩⟩
      · rw [if_neg hins]
        cases hmod : cbtR.page.mod_row_update with
        | none =>
          simp only [hmod]
          exact Or.inr ⟨_, rfl, Or.inr ⟨rfl, rfl, Or.inl rfl⟩⟩
        | some arr =>
          simp only [hmod]
          cases hget : arr[cbtR.slot]? with
          | none =>
            simp only [hget]
            exact Or.inl trivial
          | some chain =>
            simp only [hget]
            by_cases hr : (txn_read chain).1 ≠ 0
            · rw [if_pos hr]
              exact Or.inr ⟨_, rfl, Or.inl ⟨rfl, rfl⟩⟩
            · rw [if_neg hr]
              cases hupd : (txn_read chain).2 with
              | none =>
                simp only [hupd]
                exact Or.inr ⟨_, rfl, Or.inr ⟨rfl, rfl, Or.inl rfl⟩⟩
              | some u =>
                simp only [hupd]
                by_cases ht : u.utype = UpdType.tombstone
                · rw [if_pos ht]
                  exact Or.inr ⟨_, rfl, Or.inl ⟨rfl, rfl⟩⟩
                · rw [if_neg ht]
                  cases updp with
                  | none => exact Or.inr ⟨_, rfl, Or.inr ⟨rfl, rfl, Or.inl rfl⟩⟩
                  | some x => exact Or.inr ⟨_, rfl, Or.inr ⟨rfl, rfl, Or.inr ⟨u, ht, rfl⟩⟩⟩

/-- C9 witness: the frame theorem applied at a concrete cursor triple. -/
theorem c9_outparam_frame_witness :
    (__bt_col_fix_cursor_valid ⟨0, 0, 1⟩ (some none) false).1 = 0 :=
  (c9_outparam_frame Nat (fun _ => (0, none)) ⟨0, 0, 1⟩
      ⟨⟨0, []⟩, 0, false, false⟩ ⟨⟨0, none⟩, 0, false⟩ (some none) false).1.1

/-! ## Claim C10 -/

/-- C10: the per-slot array accesses (`pg_var[slot]` in var column,
`mod_row_update[slot]` in row) are in bounds — the out-of-bounds `none`
branch of the embedding unreachable — under the precondition
`slot < page.entries` at the point of access; but the preceding
`WT_ASSERT` also admits `slot == UINT32_MAX`, and a cursor reaching the
access with the sentinel slot (no insert node in row; likewise in var
column) satisfies the assertion yet hits the out-of-bounds branch. -/
theorem c10_slot_access_bounds :
    (∀ (cbt : ColVarCursor) (updp : Option (Option Upd)) (valid : Bool),
      cbt.page.pg_var.length = cbt.page.entries → cbt.slot < cbt.page.entries →
        (__bt_col_var_cursor_valid cbt updp valid).isSome) ∧
    (∀ (C : Type) (txn_read : C → Nat × Option Upd) (cbt : RowCursor C)
        (updp : Option (Option Upd)) (valid : Bool),
      (∀ arr, cbt.page.mod_row_update = some arr → arr.length = cbt.page.entries) →
      cbt.slot < cbt.page.entries →
        (__bt_row_cursor_valid txn_read cbt updp valid).isSome) ∧
    (slot_assert UINT32_MAX 1 ∧
      __bt_col_var_cursor_valid ⟨⟨1, [CellType.other]⟩, UINT32_MAX, false, false⟩
        (some none) false = none) ∧
    (slot_assert UINT32_MAX 1 ∧
      __bt_row_cursor_valid (fun _ : Nat => (0, none))
        ⟨⟨1, some [0]⟩, UINT32_MAX, false⟩ (some none) false = none) := by
  refine ⟨?_, ?_, ⟨Or.inl rfl, rfl⟩, ⟨Or.inl rfl, rfl⟩⟩
  · intro cbt updp valid hlen hslot
    unfold __bt_col_var_cursor_valid
    by_cases h0 : cbt.page.entries = 0
    · simp [h0]
    · by_cases hins : (cbt.ins && !cbt.var_onpage_match) = true
      · simp [h0, hins]
      · have hlt : cbt.slot < cbt.page.pg_var.length := by
          rw [hlen]
          exact hslot
        obtain ⟨c, hc⟩ : ∃ c, cbt.page.pg_var[cbt.slot]? = some c :=
          ⟨_, List.getElem?_eq_some_iff.mpr ⟨hlt, rfl⟩⟩
        by_cases hdel : c = CellType.del <;> simp [h0, hins, hc, hdel]
  · intro C txn_read cbt updp valid hlen hslot
    unfold __bt_row_cursor_valid
    dsimp only
    by_cases h0 : cbt.page.entries = 0
    · simp [h0]
    · by_cases hins : cbt.ins = true
      · simp [h0, hins]
      · cases hmod : cbt.page.mod_row_update with
        | none => simp [h0, hins, hmod]
        | some arr =>
          have hlt : cbt.slot < arr.length := by
            rw [hlen arr hmod]
            exact hslot
          obtain ⟨chain, hc⟩ : ∃ chain, arr[cbt.slot]? = some chain :=
            ⟨_, List.getElem?_eq_some_iff.mpr ⟨hlt, rfl⟩⟩
          by_cases hr : (txn_read chain).1 ≠ 0
          · simp [h0, hins, hmod, hc, hr]
          · cases hupd : (txn_read chain).2 with
            | none => simp [h0, hins, hmod, hc, hr, hupd]
            | some u =>
              by_cases ht : u.utype = UpdType.tombstone <;>
                cases updp <;> simp [h0, hins, hmod, hc, hr, hupd, ht]

/-- C10 witness: an in-range slot on a one-entry var-column page is a
safe access. -/
theorem c10_slot_access_bounds_witness :
    ([CellType.del].length = 1 ∧ (0 : Nat) < 1) ∧
    (__bt_col_var_cursor_valid ⟨⟨1, [CellType.del]⟩, 0, false, false⟩
        (some none) false).isSome :=
  ⟨⟨rfl, by decide⟩,
    c10_slot_access_bounds.1 ⟨⟨1, [CellType.del]⟩, 0, false, false⟩
      (some none) false rfl (by decide)⟩

end BtTraits
